import Mathlib

/-!
Verification development for the robotics-core1 real-time message gateway
(go-layer). The Go sources embedded here:

  * `go-layer/internal/api/websocket.go` (WSClient: connection hub, envelope
    codec, subscribe/unsubscribe/publish dispatch, teardown),
  * `go-layer/internal/api/server.go` (HTTP handlers, in particular
    `handleCloudSync`),
  * `go-layer/cmd/.../main.go` (lifecycle coordinator shutdown sequence).

The `messaging.Broker` implementation is not part of the sources; it is
modelled from the specification (see `Broker` below).

Conventions of the embedding:
  * byte slices carrying JSON text are modelled as `String`;
  * Go channels: the bounded outbound channel `send` (capacity 256) is a
    `List Envelope`; the non-blocking `select { case ch <- v: default: }`
    push is `trySend`; a plain blocking `ch <- v` is modelled as the
    eventual enqueue `blockingSend`;
  * `json.Unmarshal` into `interface{}` is modelled by `parseJson` over the
    `Json` inductive (numbers are modelled as integers; this fragment is
    enough for every payload the claims mention);
  * `time.Now().UnixNano()` is an explicit `Nat` input.
-/

/-- JSON values as produced by decoding into a dynamic value. -/
inductive Json where
  | null : Json
  | bool (b : Bool) : Json
  | num (n : Int) : Json
  | str (s : String) : Json
  | arr (elems : List Json) : Json
  | obj (fields : List (String × Json)) : Json
deriving Repr

/-- Skip JSON whitespace. -/
def skipWs : List Char → List Char
  | c :: cs =>
      if c = ' ' ∨ c = '\n' ∨ c = '\t' ∨ c = '\r' then skipWs cs else c :: cs
  | [] => []

/-- Parse the body of a JSON string literal (opening quote already
consumed), handling the simple escape sequences. -/
def parseStringBody : Nat → List Char → Option (String × List Char)
  | 0, _ => none
  | _, [] => none
  | fuel + 1, c :: cs =>
      if c = '"' then
        some ("", cs)
      else if c = '\\' then
        match cs with
        | [] => none
        | e :: cs' =>
            let esc : Option Char :=
              if e = '"' then some '"'
              else if e = '\\' then some '\\'
              else if e = '/' then some '/'
              else if e = 'n' then some '\n'
              else if e = 't' then some '\t'
              else if e = 'r' then some '\r'
              else if e = 'b' then some (Char.ofNat 8)
              else if e = 'f' then some (Char.ofNat 12)
              else none
            match esc with
            | none => none
            | some ch =>
                match parseStringBody fuel cs' with
                | none => none
                | some (s, r) => some (String.mk (ch :: s.data), r)
      else
        match parseStringBody fuel cs with
        | none => none
        | some (s, r) => some (String.mk (c :: s.data), r)

/-- Take a maximal run of decimal digits. -/
def takeDigits : List Char → List Char × List Char
  | c :: cs =>
      if c.isDigit then
        let p := takeDigits cs
        (c :: p.1, p.2)
      else ([], c :: cs)
  | [] => ([], [])

/-- Decimal digits to a natural number. -/
def digitsToNat (ds : List Char) : Nat :=
  ds.foldl (fun acc c => acc * 10 + (c.toNat - 48)) 0

/-- Does the input start with the given keyword? Returns the remainder. -/
def stripKeyword (kw : List Char) (s : List Char) : Option (List Char) :=
  if kw.isPrefixOf s then some (s.drop kw.length) else none

mutual

/-- Parse one JSON value (fuel-bounded recursive-descent). -/
def parseValue : Nat → List Char → Option (Json × List Char)
  | 0, _ => none
  | fuel + 1, input =>
      match skipWs input with
      | [] => none
      | c :: cs =>
          if c = '"' then
            match parseStringBody fuel cs with
            | none => none
            | some (s, r) => some (Json.str s, r)
          else if c = '[' then
            match skipWs cs with
            | ']' :: r => some (Json.arr [], r)
            | rest =>
                match parseArrElems fuel rest with
                | none => none
                | some (vs, r) => some (Json.arr vs, r)
          else if c = '\x7b' then
            match skipWs cs with
            | '\x7d' :: r => some (Json.obj [], r)
            | rest =>
                match parseObjFields fuel rest with
                | none => none
                | some (fs, r) => some (Json.obj fs, r)
          else if c = 't' then
            match stripKeyword ['t', 'r', 'u', 'e'] (c :: cs) with
            | some r => some (Json.bool true, r)
            | none => none
          else if c = 'f' then
            match stripKeyword ['f', 'a', 'l', 's', 'e'] (c :: cs) with
            | some r => some (Json.bool false, r)
            | none => none
          else if c = 'n' then
            match stripKeyword ['n', 'u', 'l', 'l'] (c :: cs) with
            | some r => some (Json.null, r)
            | none => none
          else if c = '-' then
            match takeDigits cs with
            | ([], _) => none
            | (ds, r) => some (Json.num (-(digitsToNat ds : Int)), r)
          else if c.isDigit then
            match takeDigits (c :: cs) with
            | ([], _) => none
            | (ds, r) => some (Json.num (digitsToNat ds : Int), r)
          else none

/-- Parse the elements of a non-empty JSON array (after `[`). -/
def parseArrElems : Nat → List Char → Option (List Json × List Char)
  | 0, _ => none
  | fuel + 1, input =>
      match parseValue fuel input with
      | none => none
      | some (v, r) =>
          match skipWs r with
          | ',' :: r' =>
              match parseArrElems fuel r' with
              | none => none
              | some (vs, r'') => some (v :: vs, r'')
          | ']' :: r' => some ([v], r')
          | _ => none

/-- Parse the fields of a non-empty JSON object (after the open brace). -/
def parseObjFields : Nat → List Char → Option (List (String × Json) × List Char)
  | 0, _ => none
  | fuel + 1, input =>
      match skipWs input with
      | '"' :: cs =>
          match parseStringBody fuel cs with
          | none => none
          | some (k, r) =>
              match skipWs r with
              | ':' :: r' =>
                  match parseValue fuel r' with
                  | none => none
                  | some (v, r'') =>
                      match skipWs r'' with
                      | ',' :: r3 =>
                          match parseObjFields fuel r3 with
                          | none => none
                          | some (fs, r4) => some ((k, v) :: fs, r4)
                      | '\x7d' :: r3 => some ([(k, v)], r3)
                      | _ => none
              | _ => none
      | _ => none

end

/-- Model of `json.Unmarshal(data, &v)` for `v interface\x7b\x7d`: parse one value
and require only trailing whitespace after it. -/
def parseJson (s : String) : Option Json :=
  match parseValue (2 * s.data.length + 2) s.data with
  | none => none
  | some (v, rest) =>
      match skipWs rest with
      | [] => some v
      | _ => none

/-- Escape a string for inclusion in JSON output (quote and backslash). -/
def escapeString (s : String) : String :=
  String.mk (s.data.foldr
    (fun c acc =>
      if c = '"' then '\\' :: '"' :: acc
      else if c = '\\' then '\\' :: '\\' :: acc
      else c :: acc) [])

/-- Model of `json.Marshal` on a `map[string]string`: Go emits the keys in
sorted order, so callers pass `fields` already key-sorted. -/
def marshalStringMap (fields : List (String × String)) : String :=
  "\x7b" ++
    String.intercalate ","
      (fields.map fun f => "\"" ++ escapeString f.1 ++ "\":\"" ++ escapeString f.2 ++ "\"") ++
  "\x7d"

/-- An outbound envelope as built by `createMessage`, kept in structured form
(the Go code marshals this map to bytes; field presence, not byte order, is
what the protocol specifies). -/
structure Envelope where
  type : String
  topic : Option String
  payload : Option Json
deriving Repr

/-- Embedding of `createMessage(msgType, topic, payload)`
(websocket.go): the topic key is set only when `topic != ""`; a non-nil
payload is unmarshalled, and embedded as the parsed value on success or as
the raw bytes as a JSON string on failure; a nil payload sets no payload
key. -/
def createMessage (msgType : String) (topic : String) (payload : Option String) : Envelope :=
  { type := msgType
    topic := if topic = "" then none else some topic
    payload :=
      payload.map fun p =>
        match parseJson p with
        | some v => v
        | none => Json.str p }


/-! ## The message Broker (spec-modelled)

Modelled from the spec: the `go-layer/internal/messaging` package that
implements `messaging.Broker` is not among the sources (only its callers
are). Per the spec, a subscription is the relation
(topic, connection-identifier, delivery callback), unique per
(topic, connection); `Subscribe` never fails except on an empty topic;
`Unsubscribe` is an idempotent removal that errors (non-fatally) when no
matching subscription exists; `Publish` synchronously invokes every
callback currently registered for the topic. Callbacks are represented
extensionally: the registered callback for `(topic, clientID)` is the
delivery closure built in `handleSubscribe`, so system-level publish
(`publishDeliver` below) applies that closure to each subscribed client. -/

/-- Modelled from the spec: the Broker state is its topic→subscriber table,
a list of (topic, connection-identifier) registrations. -/
structure Broker where
  subs : List (String × String)
deriving Repr, DecidableEq

/-- Modelled from the spec: `Subscribe(topic, callback)` registers the
callback for the topic; it never fails except on an empty topic, and the
fan-out table never holds duplicate entries for the same connection. -/
def Broker.subscribe (b : Broker) (topic clientID : String) : Except String Broker :=
  if topic = "" then .error "invalid topic"
  else if (topic, clientID) ∈ b.subs then .ok b
  else .ok { subs := b.subs ++ [(topic, clientID)] }

/-- Modelled from the spec: `Unsubscribe(topic, connectionID)` removes the
matching subscription; error (treated as non-fatal by callers) when none
exists. -/
def Broker.unsubscribe (b : Broker) (topic clientID : String) : Except String Broker :=
  if (topic, clientID) ∈ b.subs then
    .ok { subs := b.subs.filter fun e => decide (e ≠ (topic, clientID)) }
  else .error "no matching subscription"

/-- Best-effort unsubscribe as every caller in websocket.go performs it: a
failure is logged and otherwise ignored, leaving the Broker unchanged. -/
def Broker.unsubscribeBE (b : Broker) (topic clientID : String) : Broker :=
  match b.unsubscribe topic clientID with
  | .ok b' => b'
  | .error _ => b

/-- The topics the Broker currently holds for a given connection
identifier, in registration order. -/
def Broker.topicsOf (b : Broker) (clientID : String) : List String :=
  (b.subs.filter fun e => decide (e.2 = clientID)).map Prod.fst

/-! ## The WebSocket client (connection hub) -/

/-- Capacity of the outbound channel: `make(chan []byte, 256)` in
`NewWSClient`. -/
def sendCapacity : Nat := 256

/-- Per-connection state of `WSClient` (websocket.go): the connection
identifier, the outbound queue backing the `send` channel (oldest first),
and the local subscription set. -/
structure WSClient where
  clientID : String
  send : List Envelope
  subscriptions : List String
deriving Repr

/-- Decimal digit characters of `n`, most significant first: the rendering
of the `%d` verb in `fmt.Sprintf`. -/
def decimalDigits (n : Nat) : List Char :=
  if n = 0 then ['0']
  else (Nat.digits 10 n).reverse.map fun d => Char.ofNat (48 + d)

/-- Embedding of `generateClientID()`:
`fmt.Sprintf("ws-%d", time.Now().UnixNano())`, with the clock reading an
explicit input. -/
def generateClientID (nowUnixNano : Nat) : String :=
  "ws-" ++ String.mk (decimalDigits nowUnixNano)

/-- Embedding of `NewWSClient`: fresh identifier from the accept-time
clock, empty bounded outbound queue, empty subscription list. -/
def NewWSClient (nowUnixNano : Nat) : WSClient :=
  { clientID := generateClientID nowUnixNano
    send := []
    subscriptions := [] }

/-- The non-blocking channel push
`select { case c.send <- v: default: }` used by the delivery callback:
enqueue when below capacity, silently drop otherwise. -/
def trySend (c : WSClient) (e : Envelope) : WSClient :=
  if c.send.length < sendCapacity then { c with send := c.send ++ [e] } else c

/-- A plain blocking push `c.send <- v` (acks and error notices): modelled
as the eventual enqueue. -/
def blockingSend (c : WSClient) (e : Envelope) : WSClient :=
  { c with send := c.send ++ [e] }

/-- Embedding of `sendError(code, message)`: marshal the two-entry string
map (Go emits map keys sorted, and "code" < "message") and push an `error`
envelope with empty topic. -/
def sendError (c : WSClient) (code message : String) : WSClient :=
  blockingSend c
    (createMessage "error" "" (some (marshalStringMap [("code", code), ("message", message)])))

/-- The delivery closure registered by `handleSubscribe`: on a publish of
`data` to `topic`, push a `message` envelope without blocking. -/
def deliverClosure (topic : String) (data : Option String) (c : WSClient) : WSClient :=
  trySend c (createMessage "message" topic data)

/-- Embedding of `handleSubscribe(topic)`: a topic already in the local
set returns at once (before any Broker call and before any ack); otherwise
register with the Broker, and on success append to the local set and push
the `subscribed` ack, on failure push a `subscription_failed` error. -/
def handleSubscribe (b : Broker) (c : WSClient) (topic : String) : Broker × WSClient :=
  if topic ∈ c.subscriptions then (b, c)
  else
    match b.subscribe topic c.clientID with
    | .error _ => (b, sendError c "subscription_failed" "Failed to subscribe to topic")
    | .ok b' =>
        let c' := { c with subscriptions := c.subscriptions ++ [topic] }
        (b', blockingSend c' (createMessage "subscribed" topic none))

/-- Embedding of `handleUnsubscribe(topic)`: scan the local list for the
first matching entry; when found, best-effort Broker unsubscribe, remove
that entry, and push the `unsubscribed` ack; when no entry matches, do
nothing and send nothing. -/
def handleUnsubscribe (b : Broker) (c : WSClient) (topic : String) : Broker × WSClient :=
  if topic ∈ c.subscriptions then
    let b' := b.unsubscribeBE topic c.clientID
    let c' := { c with subscriptions := c.subscriptions.erase topic }
    (b', blockingSend c' (createMessage "unsubscribed" topic none))
  else (b, c)

/-- Embedding of `unsubscribeAll()` (the teardown path run by the
`readPump` defer): best-effort Broker unsubscribe for every topic in the
local list, then `c.subscriptions = nil`. -/
def unsubscribeAll (b : Broker) (c : WSClient) : Broker × WSClient :=
  let b' := c.subscriptions.foldl (fun acc t => acc.unsubscribeBE t c.clientID) b
  (b', { c with subscriptions := [] })

/-- System-level `Broker.Publish topic data`: synchronously run the
registered delivery closure of every client subscribed to the topic; each
closure only does a non-blocking push onto its own client's queue. -/
def publishDeliver (b : Broker) (topic : String) (data : Option String)
    (clients : List WSClient) : List WSClient :=
  clients.map fun c =>
    if (topic, c.clientID) ∈ b.subs then deliverClosure topic data c else c

/-! ## Inbound frame dispatch and the read loop -/

/-- The decoded shape of an inbound frame
(the anonymous struct in `handleMessage`): absent JSON keys leave the Go
zero values, so a missing type or topic is `""` and a missing payload is a
nil `json.RawMessage` (`none`). -/
structure WireMsg where
  type : String
  topic : String
  payload : Option String
deriving Repr, DecidableEq

/-- An inbound frame after `json.Unmarshal`: `none` models bytes the
decoder rejects (not JSON, or not decodable into the struct). -/
def Frame : Type := Option WireMsg

/-- The gateway-side state a single connection's read loop acts on: the
shared Broker, the connection itself, and the other live connections
(reached only through publish fan-out). -/
structure SysState where
  broker : Broker
  self : WSClient
  others : List WSClient
deriving Repr

/-- Embedding of `handlePublish(topic, payload)`: forward to
`Broker.Publish`, whose fan-out runs every subscribed client's delivery
closure (including the publisher's own, if subscribed). The spec gives
`Publish` no failure case beyond being a silent no-op without subscribers,
so the handler's `publish_failed` branch is not reachable in this model. -/
def handlePublish (st : SysState) (topic : String) (payload : Option String) : SysState :=
  { st with
      self := if (topic, st.self.clientID) ∈ st.broker.subs
              then deliverClosure topic payload st.self else st.self
      others := publishDeliver st.broker topic payload st.others }

/-- Embedding of `handleMessage(message)`: a frame the decoder rejects
produces an `invalid_message` error envelope; otherwise dispatch on the
type tag, with every unrecognized tag producing an `unknown_type` error
envelope. In every case the function returns to the read loop. -/
def handleMessage (st : SysState) (frame : Frame) : SysState :=
  match frame with
  | none =>
      { st with self := sendError st.self "invalid_message" "Failed to parse message" }
  | some msg =>
      if msg.type = "subscribe" then
        let r := handleSubscribe st.broker st.self msg.topic
        { st with broker := r.1, self := r.2 }
      else if msg.type = "unsubscribe" then
        let r := handleUnsubscribe st.broker st.self msg.topic
        { st with broker := r.1, self := r.2 }
      else if msg.type = "publish" then
        handlePublish st msg.topic msg.payload
      else
        { st with self := sendError st.self "unknown_type" "Unknown message type" }

/-- The `readPump` loop body applied to a finite sequence of inbound
frames (the loop exits only on a transport read error, modelled by the end
of the list; `handleMessage` never breaks the loop). -/
def processFrames (st : SysState) : List Frame → SysState
  | [] => st
  | f :: fs => processFrames (handleMessage st f) fs

/-- The `readPump` deferred teardown, restricted to the state it mutates:
`unsubscribeAll()` against the Broker, then the local set is nil (closing
the channel and the transport carry no further modelled state). -/
def teardown (b : Broker) (c : WSClient) : Broker × WSClient :=
  unsubscribeAll b c

/-! ## HTTP cloud-sync handler (server.go) -/

/-- HTTP methods as dispatched by the handlers. -/
inductive HttpMethod where
  | get
  | post
  | other (name : String)
deriving Repr, DecidableEq

/-- An HTTP response: status code and body text. `http.Error` and
`json.NewEncoder(w).Encode` both terminate the body with a newline. -/
structure HttpResponse where
  status : Nat
  body : String
deriving Repr, DecidableEq

/-- Decoding the request body into
`struct { Mode string }` (`handleCloudSync`): the body must be a JSON
value the decoder can assign to the struct — an object (taking the last
`"mode"` key, which must be a string, the zero value `""` when absent) or
`null` (which leaves the zero value). Anything else is a decode error. -/
def decodeSyncParams (body : String) : Option String :=
  match parseJson body with
  | some (Json.obj fields) =>
      match (fields.filter fun f => decide (f.1 = "mode")).getLast? with
      | some (_, Json.str m) => some m
      | some (_, _) => none
      | none => some ""
  | some Json.null => some ""
  | _ => none

/-- Embedding of `Server.handleCloudSync`: POST only; a body that fails to
decode is answered 400 before the collaborator is consulted; a
collaborator (`cloudConnector.TriggerSync`) error is answered 500; success
is answered 200 with the encoded `{"sync_id": id}` map. The second
component records the `TriggerSync` calls made. -/
def handleCloudSync (triggerSync : String → Except String String)
    (method : HttpMethod) (body : String) : HttpResponse × List String :=
  match method with
  | .post =>
      match decodeSyncParams body with
      | none => ({ status := 400, body := "Invalid request body\n" }, [])
      | some mode =>
          match triggerSync mode with
          | .error e =>
              ({ status := 500, body := "Failed to start sync: " ++ e ++ "\n" }, [mode])
          | .ok syncID =>
              ({ status := 200, body := marshalStringMap [("sync_id", syncID)] ++ "\n" }, [mode])
  | _ => ({ status := 405, body := "Method not allowed\n" }, [])

/-! ## Lifecycle coordinator shutdown (main.go) -/

/-- Observable lifecycle flags: is the Gateway still accepting new
external requests, are the shared services (Broker, collaborators) still
up, has the process exited. -/
structure LifecycleState where
  accepting : Bool
  servicesUp : Bool
  exited : Bool
deriving Repr, DecidableEq

/-- The shutdown actions of `main` after the termination signal. -/
inductive ShutdownStep where
  | stopGateway (graceMillis : Nat)
  | cancelServices
  | sleepCleanup (millis : Nat)
  | exitProcess
deriving Repr, DecidableEq

/-- Embedding of the post-signal suffix of `main`, in program order:
`apiServer.Shutdown(shutdownCtx)` under a 10 s grace context (stop
accepting, wait for in-flight work), then `cancel()` (tear down Broker and
collaborators), then the 250 ms cleanup sleep, then process exit. -/
def mainShutdownSequence : List ShutdownStep :=
  [.stopGateway 10000, .cancelServices, .sleepCleanup 250, .exitProcess]

/-- Effect of one shutdown step on the lifecycle flags. -/
def applyStep (s : LifecycleState) : ShutdownStep → LifecycleState
  | .stopGateway _ => { s with accepting := false }
  | .cancelServices => { s with servicesUp := false }
  | .sleepCleanup _ => s
  | .exitProcess => { s with exited := true }

/-- The lifecycle state while every service is running. -/
def runningState : LifecycleState :=
  { accepting := true, servicesUp := true, exited := false }

/-- All states reached while executing the shutdown sequence, the initial
running state included. -/
def shutdownTrace : List LifecycleState :=
  mainShutdownSequence.scanl applyStep runningState

/-! ## Invariant relating a connection to the Broker, and concrete
instances used by the final theorems -/

/-- The per-connection invariant: the connection still carries its
accept-time identifier, the Broker's entries for that identifier list
exactly the topics in the local subscription set (in order), and the local
set has no duplicates. It holds for a fresh connection and is preserved by
every inbound frame. -/
def ConnInv (cid : String) (st : SysState) : Prop :=
  st.self.clientID = cid
  ∧ st.broker.topicsOf cid = st.self.subscriptions
  ∧ st.self.subscriptions.Nodup

/-- A cloud collaborator stub: sync id "abc123" for a full sync, failure
otherwise. -/
def syncStub : String → Except String String :=
  fun mode => if mode = "full" then .ok "abc123" else .error "cloud down"

/-- A connection whose outbound queue is exactly at capacity. -/
def fullClient : WSClient :=
  { clientID := "ws-1"
    send := List.replicate 256 (createMessage "subscribed" "t" none)
    subscriptions := ["t"] }

/-- A second connection on the same topic with room in its queue. -/
def roomClient : WSClient :=
  { clientID := "ws-2", send := [], subscriptions := ["t"] }

/-- A Broker fan-out table with both demo connections on topic "t". -/
def demoBroker : Broker :=
  ⟨[("t", "ws-1"), ("t", "ws-2")]⟩

/-- State of a fresh connection after its first subscribe to "sensors". -/
def subOnce : Broker × WSClient :=
  handleSubscribe ⟨[]⟩ (NewWSClient 1) "sensors"

/-- State after sending the same subscribe intent a second time. -/
def subTwice : Broker × WSClient :=
  handleSubscribe subOnce.1 subOnce.2 "sensors"

/-! ## Helper lemmas -/

/-- Membership in the Broker's topic list for a connection is membership
of the pair in the fan-out table. -/
theorem mem_topicsOf {b : Broker} {cid t : String} :
    t ∈ b.topicsOf cid ↔ (t, cid) ∈ b.subs := by
  unfold Broker.topicsOf
  simp only [List.mem_map, List.mem_filter, decide_eq_true_eq]
  constructor
  · rintro ⟨⟨a, a2⟩, ⟨hmem, hcid⟩, hfst⟩
    simp only at hfst hcid
    subst hfst; subst hcid
    exact hmem
  · intro h
    exact ⟨(t, cid), ⟨h, rfl⟩, rfl⟩

/-- Removing one connection's entry for a topic from the fan-out table
filters that topic out of the connection's topic list. -/
theorem topicsOf_filter_ne (b : Broker) (t cid : String) :
    Broker.topicsOf ⟨b.subs.filter fun e => decide (e ≠ (t, cid))⟩ cid
      = (b.topicsOf cid).filter (· != t) := by
  unfold Broker.topicsOf
  simp only
  rw [List.filter_filter, List.filter_map, List.filter_filter]
  apply congrArg
  apply List.filter_congr
  rintro ⟨a, a2⟩ _
  by_cases h2 : a2 = cid <;> by_cases h1 : a = t <;>
    simp [h1, h2, Prod.ext_iff, Function.comp]

/-- The delivery closure touches only the outbound queue. -/
theorem deliverClosure_fields (t : String) (d : Option String) (c : WSClient) :
    (deliverClosure t d c).clientID = c.clientID
    ∧ (deliverClosure t d c).subscriptions = c.subscriptions := by
  unfold deliverClosure trySend
  split <;> simp

/-- The digit-to-character map of the `%d` rendering is injective on
decimal digits. -/
theorem digitChar_inj :
    ∀ d₁ < 10, ∀ d₂ < 10, Char.ofNat (48 + d₁) = Char.ofNat (48 + d₂) → d₁ = d₂ := by
  decide

/-- Mapping decimal digits to characters is injective on digit lists. -/
theorem mapDigitChar_inj :
    ∀ l₁ l₂ : List Nat, (∀ d ∈ l₁, d < 10) → (∀ d ∈ l₂, d < 10) →
      l₁.map (fun d => Char.ofNat (48 + d)) = l₂.map (fun d => Char.ofNat (48 + d)) →
      l₁ = l₂ := by
  intro l₁
  induction l₁ with
  | nil =>
      intro l₂ _ _ h
      cases l₂ with
      | nil => rfl
      | cons b t => simp at h
  | cons a t ih =>
      intro l₂ h1 h2 h
      cases l₂ with
      | nil => simp at h
      | cons b t2 =>
          simp only [List.map_cons, List.cons.injEq] at h
          have hab : a = b :=
            digitChar_inj a (h1 a (List.mem_cons_self a t)) b (h2 b (List.mem_cons_self b t2)) h.1
          subst hab
          have ht : t = t2 :=
            ih t2 (fun d hd => h1 d (List.mem_cons_of_mem a hd))
              (fun d hd => h2 d (List.mem_cons_of_mem a hd)) h.2
          rw [ht]

/-- The decimal rendering of a natural number is injective. -/
theorem decimalDigits_injective : Function.Injective decimalDigits := by
  intro m n h
  unfold decimalDigits at h
  by_cases hm : m = 0 <;> by_cases hn : n = 0
  · rw [hm, hn]
  · exfalso
    rw [if_pos hm, if_neg hn] at h
    have h0 : ([0] : List Nat).map (fun d => Char.ofNat (48 + d))
        = (Nat.digits 10 n).reverse.map (fun d => Char.ofNat (48 + d)) := h
    have hrev : ([0] : List Nat) = (Nat.digits 10 n).reverse :=
      mapDigitChar_inj _ _ (by decide)
        (fun d hd => Nat.digits_lt_base (by norm_num) (List.mem_reverse.mp hd)) h0
    have hdig : Nat.digits 10 n = [0] := by
      have := congrArg List.reverse hrev
      simpa using this.symm
    have hzero := Nat.ofDigits_digits 10 n
    rw [hdig] at hzero
    simp [Nat.ofDigits] at hzero
    exact hn hzero.symm
  · exfalso
    rw [if_neg hm, if_pos hn] at h
    have h0 : (Nat.digits 10 m).reverse.map (fun d => Char.ofNat (48 + d))
        = ([0] : List Nat).map (fun d => Char.ofNat (48 + d)) := h
    have hrev : (Nat.digits 10 m).reverse = ([0] : List Nat) :=
      mapDigitChar_inj _ _
        (fun d hd => Nat.digits_lt_base (by norm_num) (List.mem_reverse.mp hd)) (by decide) h0
    have hdig : Nat.digits 10 m = [0] := by
      have := congrArg List.reverse hrev
      simpa using this
    have hzero := Nat.ofDigits_digits 10 m
    rw [hdig] at hzero
    simp [Nat.ofDigits] at hzero
    exact hm hzero.symm
  · rw [if_neg hm, if_neg hn] at h
    have hrev : (Nat.digits 10 m).reverse = (Nat.digits 10 n).reverse :=
      mapDigitChar_inj _ _
        (fun d hd => Nat.digits_lt_base (by norm_num) (List.mem_reverse.mp hd))
        (fun d hd => Nat.digits_lt_base (by norm_num) (List.mem_reverse.mp hd)) h
    have hdig : Nat.digits 10 m = Nat.digits 10 n := by
      have := congrArg List.reverse hrev
      simpa using this
    exact Nat.digits_inj_iff.mp hdig

/-- Appending a new registration for a connection appends its topic. -/
theorem topicsOf_append_self (b : Broker) (t cid : String) :
    Broker.topicsOf ⟨b.subs ++ [(t, cid)]⟩ cid = b.topicsOf cid ++ [t] := by
  unfold Broker.topicsOf
  simp [List.filter_append]

/-- Registrations of other connections do not change a connection's
topic list. -/
theorem topicsOf_mk (subs : List (String × String)) (cid : String) :
    Broker.topicsOf ⟨subs⟩ cid = (subs.filter fun e => decide (e.2 = cid)).map Prod.fst :=
  rfl

/-- `handleSubscribe` preserves the per-connection invariant. -/
theorem connInv_handleSubscribe {cid : String} {b : Broker} {c : WSClient} (topic : String)
    (hid : c.clientID = cid) (heq : b.topicsOf cid = c.subscriptions)
    (hnd : c.subscriptions.Nodup) :
    (handleSubscribe b c topic).2.clientID = cid
    ∧ (handleSubscribe b c topic).1.topicsOf cid = (handleSubscribe b c topic).2.subscriptions
    ∧ (handleSubscribe b c topic).2.subscriptions.Nodup := by
  subst hid
  by_cases hm : topic ∈ c.subscriptions
  · simp [handleSubscribe, hm, heq, hnd]
  · unfold handleSubscribe Broker.subscribe
    rw [if_neg hm]
    by_cases h0 : topic = ""
    · simp [h0, sendError, blockingSend, heq, hnd]
    · have hnotin : (topic, c.clientID) ∉ b.subs := fun hc =>
        hm (heq ▸ mem_topicsOf.mpr hc)
      rw [if_neg h0]
      simp only [if_neg hnotin]
      refine ⟨rfl, ?_, ?_⟩
      · show Broker.topicsOf ⟨b.subs ++ [(topic, c.clientID)]⟩ c.clientID
            = c.subscriptions ++ [topic]
        rw [topicsOf_append_self, heq]
      · show (c.subscriptions ++ [topic]).Nodup
        simp [List.nodup_append, hnd, hm]

/-- `handleUnsubscribe` preserves the per-connection invariant. -/
theorem connInv_handleUnsubscribe {cid : String} {b : Broker} {c : WSClient} (topic : String)
    (hid : c.clientID = cid) (heq : b.topicsOf cid = c.subscriptions)
    (hnd : c.subscriptions.Nodup) :
    (handleUnsubscribe b c topic).2.clientID = cid
    ∧ (handleUnsubscribe b c topic).1.topicsOf cid = (handleUnsubscribe b c topic).2.subscriptions
    ∧ (handleUnsubscribe b c topic).2.subscriptions.Nodup := by
  subst hid
  by_cases hm : topic ∈ c.subscriptions
  · have hmem : (topic, c.clientID) ∈ b.subs := mem_topicsOf.mp (heq ▸ hm)
    unfold handleUnsubscribe Broker.unsubscribeBE Broker.unsubscribe
    rw [if_pos hm]
    simp only [if_pos hmem, blockingSend]
    refine ⟨by trivial, ?_, hnd.erase topic⟩
    show Broker.topicsOf ⟨b.subs.filter fun e => decide (e ≠ (topic, c.clientID))⟩ c.clientID
        = c.subscriptions.erase topic
    rw [topicsOf_filter_ne, heq, hnd.erase_eq_filter]
  · simp [handleUnsubscribe, hm, heq, hnd]

/-- `handleMessage` preserves the per-connection invariant for every
frame. -/
theorem connInv_handleMessage {cid : String} {st : SysState} (f : Frame)
    (h : ConnInv cid st) : ConnInv cid (handleMessage st f) := by
  obtain ⟨hid, heq, hnd⟩ := h
  match f with
  | none =>
      exact ⟨hid, heq, hnd⟩
  | some msg =>
      by_cases h1 : msg.type = "subscribe"
      · have := connInv_handleSubscribe (b := st.broker) (c := st.self) msg.topic hid heq hnd
        simp only [handleMessage, h1, if_pos]
        exact ⟨this.1, this.2.1, this.2.2⟩
      · by_cases h2 : msg.type = "unsubscribe"
        · have := connInv_handleUnsubscribe (b := st.broker) (c := st.self) msg.topic hid heq hnd
          simp only [handleMessage, h1, h2, if_neg, if_pos]
          exact ⟨this.1, this.2.1, this.2.2⟩
        · by_cases h3 : msg.type = "publish"
          · simp only [handleMessage, h1, h2, h3, if_neg, if_pos]
            unfold handlePublish
            constructor
            · show (if (msg.topic, st.self.clientID) ∈ st.broker.subs
                    then deliverClosure msg.topic msg.payload st.self else st.self).clientID = cid
              split
              · rw [(deliverClosure_fields _ _ _).1, hid]
              · exact hid
            constructor
            · show st.broker.topicsOf cid
                  = (if (msg.topic, st.self.clientID) ∈ st.broker.subs
                     then deliverClosure msg.topic msg.payload st.self else st.self).subscriptions
              split
              · rw [(deliverClosure_fields _ _ _).2, heq]
              · exact heq
            · show (if (msg.topic, st.self.clientID) ∈ st.broker.subs
                    then deliverClosure msg.topic msg.payload st.self else st.self).subscriptions.Nodup
              split
              · rw [(deliverClosure_fields _ _ _).2]; exact hnd
              · exact hnd
          · simp only [handleMessage, h1, h2, h3, if_neg]
            exact ⟨hid, heq, hnd⟩

/-- The invariant is preserved along any finite frame sequence. -/
theorem connInv_processFrames {cid : String} (frames : List Frame) :
    ∀ st : SysState, ConnInv cid st → ConnInv cid (processFrames st frames) := by
  induction frames with
  | nil => intro st h; exact h
  | cons f fs ih =>
      intro st h
      exact ih (handleMessage st f) (connInv_handleMessage f h)

/-- Best-effort unsubscribing every topic of a connection's (duplicate-
free) topic list empties the Broker's entries for that connection. -/
theorem foldl_unsubscribe_clears (cid : String) :
    ∀ (l : List String) (b : Broker), b.topicsOf cid = l → l.Nodup →
      (l.foldl (fun acc t => acc.unsubscribeBE t cid) b).topicsOf cid = [] := by
  intro l
  induction l with
  | nil =>
      intro b h _
      simpa using h
  | cons t rest ih =>
      intro b h hnd
      have hmem : (t, cid) ∈ b.subs :=
        mem_topicsOf.mp (by rw [h]; exact List.mem_cons_self t rest)
      have hni : t ∉ rest := (List.nodup_cons.mp hnd).1
      have hbe : b.unsubscribeBE t cid
          = ⟨b.subs.filter fun e => decide (e ≠ (t, cid))⟩ := by
        unfold Broker.unsubscribeBE Broker.unsubscribe
        rw [if_pos hmem]
      show ((rest.foldl (fun acc t => acc.unsubscribeBE t cid)) (b.unsubscribeBE t cid)).topicsOf cid = []
      apply ih
      · rw [hbe, topicsOf_filter_ne, h]
        rw [List.filter_cons]
        simp only [bne_self_eq_false, Bool.false_eq_true, if_neg, ite_false]
        exact List.filter_eq_self.mpr fun a ha => by
          simp only [bne_iff_ne, ne_eq, decide_eq_true_eq]
          exact fun he => hni (he ▸ ha)
      · exact (List.nodup_cons.mp hnd).2

/-! ## Claim theorems -/

/-- C1 counterexample: a fresh connection subscribes to "sensors" and then
sends the same subscribe intent again. The duplicate subscribe leaves the
entire (Broker, connection) state unchanged — the outbound queue still
holds exactly the single `subscribed` ack from the first subscribe, so no
ack is sent for the duplicate, contrary to the claim. -/
theorem duplicate_subscribe_sends_no_ack :
    subTwice = subOnce
    ∧ subOnce.2.send = [createMessage "subscribed" "sensors" none]
    ∧ subTwice.2.send.length = 1 := by
  exact ⟨rfl, rfl, rfl⟩

/-- C1 (amended): a subscribe intent for a topic already in the
connection's local subscription set is a complete silent no-op: no second
Broker registration, no duplicate local entry, and no envelope (in
particular no `subscribed` ack) is queued. -/
theorem duplicate_subscribe_silent_noop (b : Broker) (c : WSClient) (topic : String)
    (h : topic ∈ c.subscriptions) :
    handleSubscribe b c topic = (b, c)
    ∧ (handleSubscribe b c topic).2.send = c.send := by
  have hs : handleSubscribe b c topic = (b, c) := by
    simp [handleSubscribe, h]
  exact ⟨hs, by rw [hs]⟩

/-- Witness for the amended C1 at a concrete state. -/
theorem duplicate_subscribe_silent_noop_witness :
    handleSubscribe ⟨[("sensors", "c")]⟩ ⟨"c", [], ["sensors"]⟩ "sensors"
      = (⟨[("sensors", "c")]⟩, ⟨"c", [], ["sensors"]⟩) :=
  (duplicate_subscribe_silent_noop ⟨[("sensors", "c")]⟩ ⟨"c", [], ["sensors"]⟩ "sensors"
    (by decide)).1

/-- C2: the outbound queue has the fixed capacity `sendCapacity`; a
delivery arriving at a full queue is dropped by the non-blocking push, the
state is returned unchanged (the publisher is never blocked — the push is
a total function that does not wait), deliveries never grow a queue past
capacity, and fan-out to each other connection is exactly what it would be
in isolation, so other subscribers are unaffected. -/
theorem full_queue_drop_isolates (b : Broker) (topic : String) (data : Option String)
    (pre post : List WSClient) (c : WSClient)
    (hfull : sendCapacity ≤ c.send.length) :
    deliverClosure topic data c = c
    ∧ publishDeliver b topic data (pre ++ c :: post)
        = publishDeliver b topic data pre ++ c :: publishDeliver b topic data post
    ∧ (∀ c', c'.send.length ≤ sendCapacity →
        (deliverClosure topic data c').send.length ≤ sendCapacity)
    ∧ (∀ c', (topic, c'.clientID) ∈ b.subs → c'.send.length < sendCapacity →
        publishDeliver b topic data [c']
          = [{ c' with send := c'.send ++ [createMessage "message" topic data] }]) := by
  have hdrop : deliverClosure topic data c = c := by
    simp [deliverClosure, trySend, Nat.not_lt.mpr hfull]
  refine ⟨hdrop, ?_, ?_, ?_⟩
  · have hc : (if (topic, c.clientID) ∈ b.subs then deliverClosure topic data c else c) = c := by
      split <;> simp [hdrop]
    simp only [publishDeliver, List.map_append, List.map_cons]
    rw [hc]
  · intro c' hle
    by_cases hlt : c'.send.length < sendCapacity
    · simp only [deliverClosure, trySend, if_pos hlt, List.length_append,
        List.length_singleton]
      omega
    · simp only [deliverClosure, trySend, if_neg hlt]
      exact hle
  · intro c' hmem hlt
    simp [publishDeliver, hmem, deliverClosure, trySend, hlt]

/-- Witness for C2: a queue at capacity drops the delivery while the
publish to the two-subscriber system is the independent composition. -/
theorem full_queue_drop_isolates_witness :
    deliverClosure "t" none fullClient = fullClient
    ∧ publishDeliver demoBroker "t" none ([] ++ fullClient :: [roomClient])
        = publishDeliver demoBroker "t" none []
            ++ fullClient :: publishDeliver demoBroker "t" none [roomClient] :=
  have h := full_queue_drop_isolates demoBroker "t" none [] [roomClient] fullClient
    (by rw [show fullClient.send = List.replicate 256 (createMessage "subscribed" "t" none)
          from rfl, List.length_replicate]
        exact Nat.le.refl)
  ⟨h.1, h.2.1⟩

/-- C3: starting from accept (fresh connection, Broker holding nothing for
its identifier), after any finite sequence of inbound frames — subscribes
included — the teardown path leaves the Broker without any subscription
for that connection's identifier and empties the local subscription
set. -/
theorem teardown_clears_connection (b₀ : Broker) (now : Nat) (others : List WSClient)
    (frames : List Frame)
    (hinit : b₀.topicsOf (generateClientID now) = []) :
    (∀ t, (t, generateClientID now)
        ∉ (teardown (processFrames ⟨b₀, NewWSClient now, others⟩ frames).broker
            (processFrames ⟨b₀, NewWSClient now, others⟩ frames).self).1.subs)
    ∧ (teardown (processFrames ⟨b₀, NewWSClient now, others⟩ frames).broker
        (processFrames ⟨b₀, NewWSClient now, others⟩ frames).self).2.subscriptions = [] := by
  have hinv : ConnInv (generateClientID now) (processFrames ⟨b₀, NewWSClient now, others⟩ frames) :=
    connInv_processFrames frames _ ⟨rfl, by simpa using hinit, List.nodup_nil⟩
  obtain ⟨hid, heq, hnd⟩ := hinv
  constructor
  · intro t ht
    have hclear : (teardown (processFrames ⟨b₀, NewWSClient now, others⟩ frames).broker
        (processFrames ⟨b₀, NewWSClient now, others⟩ frames).self).1.topicsOf
          (generateClientID now) = [] := by
      show (((processFrames ⟨b₀, NewWSClient now, others⟩ frames).self.subscriptions).foldl
        (fun acc t => acc.unsubscribeBE t
          (processFrames ⟨b₀, NewWSClient now, others⟩ frames).self.clientID)
        (processFrames ⟨b₀, NewWSClient now, others⟩ frames).broker).topicsOf
          (generateClientID now) = []
      rw [hid]
      exact foldl_unsubscribe_clears (generateClientID now) _ _ heq (heq ▸ hnd)
    have := mem_topicsOf.mpr ht
    rw [hclear] at this
    simp at this
  · rfl

/-- Witness for C3: a fresh connection that subscribes to "sensors" and is
then torn down leaves no Broker entry and an empty local set. -/
theorem teardown_clears_connection_witness :
    (∀ t, (t, generateClientID 1)
        ∉ (teardown (processFrames ⟨⟨[]⟩, NewWSClient 1, []⟩
              [some ⟨"subscribe", "sensors", none⟩]).broker
            (processFrames ⟨⟨[]⟩, NewWSClient 1, []⟩
              [some ⟨"subscribe", "sensors", none⟩]).self).1.subs)
    ∧ (teardown (processFrames ⟨⟨[]⟩, NewWSClient 1, []⟩
          [some ⟨"subscribe", "sensors", none⟩]).broker
        (processFrames ⟨⟨[]⟩, NewWSClient 1, []⟩
          [some ⟨"subscribe", "sensors", none⟩]).self).2.subscriptions = [] :=
  teardown_clears_connection ⟨[]⟩ 1 [] [some ⟨"subscribe", "sensors", none⟩] rfl

/-- C4: an inbound frame the JSON decoder rejects makes the connection
queue exactly one `error` envelope whose payload is the object with code
"invalid_message" and message "Failed to parse message" (topic omitted),
everything else — Broker, subscriptions, other connections — unchanged,
and the read loop proceeds to the remaining frames, so the connection
stays open for subsequent valid frames. -/
theorem invalid_frame_error_and_loop_continues (st : SysState) (rest : List Frame) :
    handleMessage st none =
      { st with self := { st.self with send := st.self.send ++
          [{ type := "error", topic := none,
             payload := some (Json.obj
               [("code", Json.str "invalid_message"),
                ("message", Json.str "Failed to parse message")]) }] } }
    ∧ processFrames st (none :: rest) = processFrames (handleMessage st none) rest := by
  exact ⟨rfl, rfl⟩

/-- C5: for a duplicate-free local set (the invariant of every reachable
connection state), an unsubscribe intent for an unsubscribed topic changes
nothing and sends nothing; for a subscribed topic it removes the topic
from the local set and from the Broker and queues exactly the
`unsubscribed` ack. -/
theorem unsubscribe_exact (b : Broker) (c : WSClient) (topic : String)
    (hnd : c.subscriptions.Nodup) :
    (topic ∉ c.subscriptions → handleUnsubscribe b c topic = (b, c))
    ∧ (topic ∈ c.subscriptions →
        (handleUnsubscribe b c topic).2.subscriptions = c.subscriptions.erase topic
        ∧ topic ∉ (handleUnsubscribe b c topic).2.subscriptions
        ∧ (topic, c.clientID) ∉ (handleUnsubscribe b c topic).1.subs
        ∧ (handleUnsubscribe b c topic).2.send
            = c.send ++ [createMessage "unsubscribed" topic none]) := by
  constructor
  · intro h
    simp [handleUnsubscribe, h]
  · intro h
    have h1 : (handleUnsubscribe b c topic).2.subscriptions = c.subscriptions.erase topic := by
      simp [handleUnsubscribe, h, blockingSend]
    refine ⟨h1, ?_, ?_, ?_⟩
    · rw [h1]
      exact hnd.not_mem_erase
    · show (topic, c.clientID) ∉ (handleUnsubscribe b c topic).1.subs
      have hu : (handleUnsubscribe b c topic).1 = b.unsubscribeBE topic c.clientID := by
        simp [handleUnsubscribe, h]
      rw [hu]
      unfold Broker.unsubscribeBE Broker.unsubscribe
      by_cases hmem : (topic, c.clientID) ∈ b.subs
      · simp [hmem, List.mem_filter]
      · simp [hmem]
    · simp [handleUnsubscribe, h, blockingSend]

/-- Witness for C5: the redundant case is inert and the present case
clears the Broker entry. -/
theorem unsubscribe_exact_witness :
    handleUnsubscribe ⟨[("t", "c")]⟩ ⟨"c", [], ["t"]⟩ "x" = (⟨[("t", "c")]⟩, ⟨"c", [], ["t"]⟩)
    ∧ ("t", "c") ∉ (handleUnsubscribe ⟨[("t", "c")]⟩ ⟨"c", [], ["t"]⟩ "t").1.subs :=
  ⟨(unsubscribe_exact ⟨[("t", "c")]⟩ ⟨"c", [], ["t"]⟩ "x" (by decide)).1 (by decide),
   ((unsubscribe_exact ⟨[("t", "c")]⟩ ⟨"c", [], ["t"]⟩ "t" (by decide)).2 (by decide)).2.2.1⟩

/-- C6: a decoded frame whose type is none of subscribe, unsubscribe or
publish queues exactly one `error` envelope with code "unknown_type",
leaves the Broker, the local subscription set and the other connections
unchanged, and the read loop proceeds to the remaining frames. -/
theorem unknown_type_error_keeps_state (st : SysState) (msg : WireMsg) (rest : List Frame)
    (h1 : msg.type ≠ "subscribe") (h2 : msg.type ≠ "unsubscribe") (h3 : msg.type ≠ "publish") :
    handleMessage st (some msg) =
      { st with self := { st.self with send := st.self.send ++
          [{ type := "error", topic := none,
             payload := some (Json.obj
               [("code", Json.str "unknown_type"),
                ("message", Json.str "Unknown message type")]) }] } }
    ∧ (handleMessage st (some msg)).broker = st.broker
    ∧ (handleMessage st (some msg)).self.subscriptions = st.self.subscriptions
    ∧ (handleMessage st (some msg)).others = st.others
    ∧ processFrames st (some msg :: rest) = processFrames (handleMessage st (some msg)) rest := by
  have he : handleMessage st (some msg)
      = { st with self := sendError st.self "unknown_type" "Unknown message type" } := by
    simp [handleMessage, h1, h2, h3]
  refine ⟨?_, ?_, ?_, ?_, rfl⟩ <;> (rw [he]; try rfl)

/-- Witness for C6 on a concrete "ping" frame. -/
theorem unknown_type_error_keeps_state_witness :
    (handleMessage ⟨⟨[]⟩, ⟨"c", [], []⟩, []⟩ (some ⟨"ping", "", none⟩)).broker = ⟨[]⟩ :=
  (unknown_type_error_keeps_state ⟨⟨[]⟩, ⟨"c", [], []⟩, []⟩ ⟨"ping", "", none⟩ []
    (by decide) (by decide) (by decide)).2.1

/-- C7: `handleCloudSync` answers a full-sync POST against a collaborator
returning "abc123" with 200 and body `{"sync_id":"abc123"}`; a POST whose
body does not decode is answered 400 with no collaborator call; a
collaborator error is answered 500. -/
theorem cloud_sync_contract (ts : String → Except String String) :
    (ts "full" = .ok "abc123" →
      handleCloudSync ts .post "\x7b\"mode\":\"full\"\x7d"
        = ({ status := 200, body := "\x7b\"sync_id\":\"abc123\"\x7d\n" }, ["full"]))
    ∧ (∀ body, decodeSyncParams body = none →
        handleCloudSync ts .post body = ({ status := 400, body := "Invalid request body\n" }, []))
    ∧ (∀ mode body e, decodeSyncParams body = some mode → ts mode = .error e →
        handleCloudSync ts .post body
          = ({ status := 500, body := "Failed to start sync: " ++ e ++ "\n" }, [mode])) := by
  refine ⟨?_, ?_, ?_⟩
  · intro h
    have hd : decodeSyncParams "\x7b\"mode\":\"full\"\x7d" = some "full" := rfl
    simp [handleCloudSync, hd, h]
    rfl
  · intro body hb
    simp [handleCloudSync, hb]
  · intro mode body e hd he
    simp [handleCloudSync, hd, he]

/-- Witness for C7 against the collaborator stub. -/
theorem cloud_sync_contract_witness :
    handleCloudSync syncStub .post "\x7b\"mode\":\"full\"\x7d"
      = ({ status := 200, body := "\x7b\"sync_id\":\"abc123\"\x7d\n" }, ["full"])
    ∧ handleCloudSync syncStub .post "not json"
      = ({ status := 400, body := "Invalid request body\n" }, [])
    ∧ handleCloudSync syncStub .post "\x7b\"mode\":\"x\"\x7d"
      = ({ status := 500, body := "Failed to start sync: cloud down\n" }, ["x"]) :=
  ⟨(cloud_sync_contract syncStub).1 rfl,
   (cloud_sync_contract syncStub).2.1 "not json" rfl,
   (cloud_sync_contract syncStub).2.2 "x" "\x7b\"mode\":\"x\"\x7d" "cloud down" rfl rfl⟩

/-- C8: along the coordinator's post-signal shutdown trace, whenever the
shared services have been torn down the Gateway has already stopped
accepting; the process is exited only with the Gateway not accepting and
the services already cancelled; the final state is fully shut down; and
the gateway-stop step (with its 10 s grace bound) strictly precedes
service cancellation, which strictly precedes process exit. -/
theorem shutdown_ordering :
    (∀ s ∈ shutdownTrace,
      (s.servicesUp = false → s.accepting = false)
      ∧ (s.exited = true → s.accepting = false ∧ s.servicesUp = false))
    ∧ shutdownTrace.getLast? = some { accepting := false, servicesUp := false, exited := true }
    ∧ mainShutdownSequence.indexOf (ShutdownStep.stopGateway 10000)
        < mainShutdownSequence.indexOf ShutdownStep.cancelServices
    ∧ mainShutdownSequence.indexOf ShutdownStep.cancelServices
        < mainShutdownSequence.indexOf ShutdownStep.exitProcess := by
  decide

/-- C9 counterexample: two connections accepted at the same clock reading
(`UnixNano` ties are possible: the clock's granularity is coarser than a
nanosecond and it can be read twice in one tick) receive identical
identifiers, so identifiers of distinct accepted connections are not
always distinct. -/
theorem clientID_collision_at_equal_times :
    ¬ List.Pairwise (fun a b => a ≠ b) ([1000, 1000].map generateClientID) := by
  intro h
  exact (List.pairwise_cons.mp h).1 (generateClientID 1000)
    (List.mem_cons_self _ _) rfl

/-- C9 (amended): the identifier is injective in the accept-time clock
reading: connections accepted at different `UnixNano` values get distinct
identifiers (so identifiers never repeat as long as the clock reading is
strictly monotonic across accepts). -/
theorem clientID_injective_in_time (t₁ t₂ : Nat) (h : t₁ ≠ t₂) :
    generateClientID t₁ ≠ generateClientID t₂ := by
  intro he
  apply h
  apply decimalDigits_injective
  have hdata := congrArg String.data he
  simp only [generateClientID, String.data_append] at hdata
  exact List.append_cancel_left hdata

/-- Witness for the amended C9 at two concrete clock readings. -/
theorem clientID_injective_in_time_witness :
    generateClientID 1 ≠ generateClientID 2 :=
  clientID_injective_in_time 1 2 (by decide)

/-- C10: the envelope built by `createMessage` carries the given type; its
topic field is omitted exactly when the topic is empty; a nil payload
yields no payload field; payload bytes that parse as JSON are embedded as
the parsed value; payload bytes that do not parse are embedded as a JSON
string of the raw bytes. -/
theorem createMessage_encoding (msgType topic : String) (payload : Option String) :
    ((createMessage msgType topic payload).topic = none ↔ topic = "")
    ∧ (topic ≠ "" → (createMessage msgType topic payload).topic = some topic)
    ∧ (payload = none → (createMessage msgType topic payload).payload = none)
    ∧ (∀ p v, payload = some p → parseJson p = some v →
        (createMessage msgType topic payload).payload = some v)
    ∧ (∀ p, payload = some p → parseJson p = none →
        (createMessage msgType topic payload).payload = some (Json.str p))
    ∧ (createMessage msgType topic payload).type = msgType := by
  refine ⟨?_, ?_, ?_, ?_, ?_, rfl⟩
  · by_cases h : topic = "" <;> simp [createMessage, h]
  · intro h
    simp [createMessage, h]
  · intro h
    subst h
    simp [createMessage]
  · intro p v hp hv
    subst hp
    simp [createMessage, hv]
  · intro p hp hv
    subst hp
    simp [createMessage, hv]

/-- Witness for C10 on concrete payloads: a JSON payload is embedded
parsed, a non-JSON payload as a raw string, a nil payload omitted. -/
theorem createMessage_encoding_witness :
    (createMessage "message" "sensors" (some "\x7b\"t\":1\x7d")).payload
      = some (Json.obj [("t", Json.num 1)])
    ∧ (createMessage "error" "" (some "oops")).payload = some (Json.str "oops")
    ∧ (createMessage "subscribed" "sensors" none).payload = none :=
  ⟨(createMessage_encoding "message" "sensors" (some "\x7b\"t\":1\x7d")).2.2.2.1
      "\x7b\"t\":1\x7d" (Json.obj [("t", Json.num 1)]) rfl rfl,
   (createMessage_encoding "error" "" (some "oops")).2.2.2.2.1 "oops" rfl rfl,
   (createMessage_encoding "subscribed" "sensors" none).2.2.1 rfl⟩
